import Mathlib

/-!
Shallow embedding of the download backend of the YouTube_Downloader
repository (src/backend/index.js): the SSE progress-channel registry,
the download route handler prelude (validation and strategy dispatch),
the ffmpeg progress and error handlers, the mp4 temp-file cleanup, and
the client-disconnect subprocess teardown.
-/

namespace YT

/-! ### Progress channel registry (index.js lines 52-62 and 95-124)

The registry `progressEmitters` is a Map from an operation key to an
EventEmitter.  We model each emitter as the list of its registered
progress listeners; every listener records the payloads it has been
delivered (most recent first), which is what an SSE subscriber has
received. -/

/-- One SSE subscriber: the listener closure registered on the emitter,
identified by an id, together with the payloads delivered to it so far
(most recent first). -/
structure Subscriber where
  sid : Nat
  received : List String
deriving DecidableEq

/-- One EventEmitter held in the progressEmitters Map: its list of
progress listeners. -/
structure Channel where
  listeners : List Subscriber
deriving DecidableEq

/-- The progressEmitters Map (index.js line 52), as an association list
from operation key to channel. -/
abbrev Registry := List (String × Channel)

/-- Map lookup. -/
def lookupChannel (key : String) : Registry → Option Channel
  | [] => none
  | (k, ch) :: rest => if k = key then some ch else lookupChannel key rest

/-- Replace the channel stored under a key, when present. -/
def updateChannel (key : String) (f : Channel → Channel) : Registry → Registry
  | [] => []
  | (k, ch) :: rest =>
      if k = key then (k, f ch) :: rest else (k, ch) :: updateChannel key f rest

/-- getEmitter (index.js lines 54-57): create a fresh emitter if the key
has none, then return the registry (the emitter itself is found by
lookup). -/
def getEmitter (key : String) (reg : Registry) : Registry :=
  match lookupChannel key reg with
  | some _ => reg
  | none => (key, ⟨[]⟩) :: reg

/-- sendProgress (index.js lines 59-62): emit the payload on the
existing emitter for the key; when the key has no emitter the call does
nothing at all (no creation, no error, event dropped). Emitting
delivers the payload to every currently registered listener. -/
def sendProgress (key : String) (payload : String) (reg : Registry) : Registry :=
  match lookupChannel key reg with
  | none => reg
  | some _ =>
      updateChannel key
        (fun ch => ⟨ch.listeners.map (fun s => ⟨s.sid, payload :: s.received⟩)⟩) reg

/-- The GET /api/progress/:key handler connect step (index.js lines
95-112): getEmitter for the key, then register the onProgress listener
with an empty delivery history. -/
def subscribeProgress (key : String) (sid : Nat) (reg : Registry) : Registry :=
  updateChannel key (fun ch => ⟨⟨sid, []⟩ :: ch.listeners⟩) (getEmitter key reg)

/-- emitter.removeListener: drop the given listener from the channel. -/
def removeListener (sid : Nat) (ch : Channel) : Channel :=
  ⟨ch.listeners.filter (fun s => s.sid ≠ sid)⟩

/-- The req close handler of GET /api/progress/:key (index.js lines
119-123): remove the listener, then delete the registry entry when the
listener count has reached zero.  Nothing else is consulted. -/
def onSubscriberClose (key : String) (sid : Nat) (reg : Registry) : Registry :=
  match lookupChannel key reg with
  | none => reg
  | some ch =>
      let chRest := removeListener sid ch
      if chRest.listeners = [] then reg.filter (fun kv => kv.1 ≠ key)
      else updateChannel key (fun _ => chRest) reg

/-- A download operation paired with the registry it publishes to.  The
producerEnded flag records whether the producing download operation has
reached a terminal state; the code of the subscriber close handler never
reads it. -/
structure DownloadOp where
  registry : Registry
  producerEnded : Bool
deriving DecidableEq

/-- The subscriber close handler lifted to the operation state: it acts
on the registry only and never consults producerEnded. -/
def opOnSubscriberClose (key : String) (sid : Nat) (st : DownloadOp) : DownloadOp :=
  { st with registry := onSubscriberClose key sid st.registry }

/-! ### Download route prelude (index.js lines 179-197, 367-385)

The GET /api/download/:id handler first resolves the format query
parameter, then awaits the metadata probe (ytDlpMetadata, which spawns
a yt-dlp -j subprocess, or the yt-dlp-exec wrapper which equally spawns
one), then checks the duration ceiling, then dispatches on the format.
We record every subprocess spawn and the committed response. -/

/-- The subprocesses the download handler can spawn. -/
inductive Spawn
  /-- The yt-dlp -j metadata probe spawned by ytDlpMetadata
  (index.js line 81), or equivalently the yt-dlp-exec wrapper call. -/
  | metaProbe
  /-- ytProc: yt-dlp -f bestaudio -o - on the mp3 path (line 212). -/
  | audioFetch
  /-- The ffmpeg subprocess started by fluent-ffmpeg on the mp3 path
  (lines 229-260). -/
  | transcoder
  /-- dlProc: the merged-mp4 yt-dlp download on the mp4 path
  (lines 294-300). -/
  | mergeFetch
deriving DecidableEq

/-- How the handler commits its response. -/
inductive ResponseOutcome
  /-- res.status(s).json with an error body. -/
  | reject (status : Nat) (errorBody : String)
  /-- mp3 path: headers flushed, transcoded bytes streamed. -/
  | streamAudio
  /-- mp4 path: temp file materialized and streamed. -/
  | streamVideo
deriving DecidableEq

/-- One run of the download handler: the spawns that happened before the
response was committed, every spawn of the run, and the response. -/
structure HandlerRun where
  spawnsBeforeResponse : List Spawn
  allSpawns : List Spawn
  response : ResponseOutcome
deriving DecidableEq

/-- Whether a response is a 400 rejection carrying an error body. -/
def isReject400 : ResponseOutcome → Bool
  | .reject 400 _ => true
  | _ => false

/-- Content metadata as used by the handler: meta.title and
meta.duration from the yt-dlp JSON (both may be absent). -/
structure VideoMeta where
  title : Option String
  duration : Option ℚ
deriving DecidableEq

/-- The JavaScript expression (v || d) for an optional string: an absent
or empty (falsy) value yields the default. -/
def jsOrDefault (v : Option String) (d : String) : String :=
  match v with
  | none => d
  | some s => if s = "" then d else s

/-- ASCII lowercasing of one character, as String.prototype.toLowerCase
acts on the ASCII range relevant to format strings. -/
def lowerChar (c : Char) : Char :=
  if ('A' ≤ c) && (c ≤ 'Z') then Char.ofNat (c.toNat + 32) else c

/-- String.prototype.toLowerCase restricted to ASCII. -/
def toLowerCase (s : String) : String := ⟨s.data.map lowerChar⟩

/-- Math.floor(meta.duration || 0) (index.js line 190). -/
def flooredDuration (m : VideoMeta) : ℤ :=
  Int.floor (m.duration.getD 0)

/-- The download handler prelude (index.js lines 179-197, 274-300,
367-385): resolve the format as (req.query.format || 'mp3')
.toLowerCase(), spawn the metadata probe, then on probe failure answer
500 from the catch handler; otherwise enforce the 3600 second ceiling,
then dispatch: mp3 streams audio (spawning ytProc and ffmpeg after the
headers were flushed), mp4 spawns the merge download before any header
is written (success of the merge is assumed here; its failure paths are
modelled with the cleanup state machine below), and anything else is
answered 400. -/
def downloadHandler (queryFormat : Option String)
    (metaResult : Except String VideoMeta) : HandlerRun :=
  let format := toLowerCase (jsOrDefault queryFormat "mp3")
  match metaResult with
  | .error _ =>
      ⟨[.metaProbe], [.metaProbe], .reject 500 "Download failed"⟩
  | .ok meta =>
      let duration := flooredDuration meta
      if 3600 < duration then
        ⟨[.metaProbe], [.metaProbe],
          .reject 400 "Video too long. Maximum 1 hour allowed."⟩
      else if format = "mp3" then
        ⟨[.metaProbe], [.metaProbe, .audioFetch, .transcoder], .streamAudio⟩
      else if format = "mp4" then
        ⟨[.metaProbe, .mergeFetch], [.metaProbe, .mergeFetch], .streamVideo⟩
      else
        ⟨[.metaProbe], [.metaProbe], .reject 400 "Invalid format. Use mp3 or mp4."⟩

/-! ### Response headers (index.js lines 200-207 and 335-339) -/

/-- The headers set on the mp3 path before flushHeaders (lines 200-206).
No Content-Length is ever set here: the stream size is unknown. -/
def mp3ResponseHeaders (filename : String) : List (String × String) :=
  [("Content-Disposition", "attachment; filename=" ++ filename),
   ("Content-Type", "audio/mpeg"),
   ("Cache-Control", "no-cache"),
   ("Transfer-Encoding", "chunked"),
   ("Connection", "keep-alive"),
   ("Access-Control-Expose-Headers", "Content-Disposition")]

/-- The headers set on the mp4 path (lines 335-339), where statSize is
fs.statSync(tempFilePath).size, the exact on-disk byte size of the
materialized temp file. Content-Length is String(stat.size). -/
def mp4ResponseHeaders (filename : String) (statSize : Nat) : List (String × String) :=
  [("Content-Disposition", "attachment; filename=" ++ filename),
   ("Content-Type", "video/mp4"),
   ("Content-Length", toString statSize),
   ("Cache-Control", "no-cache"),
   ("Access-Control-Expose-Headers", "Content-Disposition, Content-Length")]

/-- Header lookup by name. -/
def findHeader (name : String) (hs : List (String × String)) : Option String :=
  match hs with
  | [] => none
  | (n, v) :: rest => if n = name then some v else findHeader name rest

/-! ### ffmpeg progress conversion (index.js lines 221-226 and 237-242) -/

/-- toSeconds (index.js lines 221-226): the timemark string split on
colons; a parse into exactly three numeric parts gives
h * 3600 + m * 60 + s, every other shape (absent timemark, not three
parts) gives 0. -/
def toSeconds : Option (ℚ × ℚ × ℚ) → ℚ
  | none => 0
  | some (h, m, s) => h * 3600 + m * 60 + s

/-- Math.min on integers. -/
def mathMin (a b : ℤ) : ℤ := if a ≤ b then a else b

/-- The percent computed by the on progress handler (index.js line 240):
duration is Math.floor(meta.duration || 0), here already a rational
number; when it is zero (falsy) the percent is null, otherwise
Math.min(100, Math.floor((seconds / duration) * 100)). -/
def progressPercent (seconds : ℚ) (duration : ℚ) : Option ℤ :=
  if duration = 0 then none
  else some (mathMin 100 (seconds / duration * 100).floor)

/-- The full on progress handler payload percent: percent of the
toSeconds of the reported timemark against the floored metadata
duration. -/
def onProgressPercent (timemark : Option (ℚ × ℚ × ℚ)) (m : VideoMeta) : Option ℤ :=
  progressPercent (toSeconds timemark) ((flooredDuration m : ℤ) : ℚ)

/-! ### mp3 path setup order and ffmpeg error handler
(index.js lines 197-260) -/

/-- The synchronous steps of the mp3 branch, in source order. -/
inductive SetupStep
  | setHeaders
  | flushHeaders
  | getEmitterStep
  | spawnYtProc
  | installFfmpegHandlers
  | pipeToResponse
  | installReqCloseHandler
deriving DecidableEq

/-- The mp3 branch setup sequence exactly as written (index.js lines
200-269): headers are set and flushed before the ffmpeg command and its
error handler exist, and before any byte is piped. -/
def mp3SetupSteps : List SetupStep :=
  [.setHeaders, .flushHeaders, .getEmitterStep, .spawnYtProc,
   .installFfmpegHandlers, .pipeToResponse, .installReqCloseHandler]

/-- Whether res.headersSent already holds once the ffmpeg error handler
is in place: flushHeaders occurs strictly before installFfmpegHandlers
in the setup sequence. -/
def mp3HeadersSentAtInstall : Bool :=
  mp3SetupSteps.indexOf .flushHeaders < mp3SetupSteps.indexOf .installFfmpegHandlers

/-- The observable actions of the ffmpeg error handler. -/
inductive Mp3Action
  /-- sendProgress with the given status field. -/
  | progressEvent (status : String)
  /-- ytProc.kill(): terminate the upstream fetch subprocess. -/
  | killYt
  /-- res.status(500).json: structured error body. -/
  | respond500Json
  /-- res.end(): terminate the connection with no further body. -/
  | endConnection
deriving DecidableEq

/-- The ffmpeg on error handler (index.js lines 243-253): kill ytProc,
publish a terminal error progress event, then answer 500 JSON only if
headers were not yet sent, otherwise just end the connection. -/
def ffmpegErrorHandler (headersSent : Bool) : List Mp3Action :=
  [.killYt, .progressEvent "error"] ++
    (if headersSent then [.endConnection] else [.respond500Json])

/-! ### mp4 temp-file cleanup (index.js lines 344-361 and 370-385) -/

/-- The filesystem state of one mp4 invocation: whether the temp file
currently exists and how many unlink calls have actually removed it. -/
structure TempFs where
  tempExists : Bool
  unlinkCount : Nat
deriving DecidableEq

/-- cleanupTemp (index.js lines 344-346): unlink the temp file only if
fs.existsSync says it is there; any unlink error is swallowed by the
try/catch, so the call never throws. -/
def cleanupTemp (s : TempFs) : TempFs :=
  if s.tempExists then ⟨false, s.unlinkCount + 1⟩ else s

/-- The temp-file cleanup in the outer catch handler (index.js lines
376-378): the same existsSync-guarded unlink inside a try/catch. -/
def catchCleanupTemp (s : TempFs) : TempFs :=
  if s.tempExists then ⟨false, s.unlinkCount + 1⟩ else s

/-- The four terminal paths of an mp4 invocation that owns a temp
file. -/
inductive TerminalPath
  /-- readStream on end (line 353). -/
  | normalEnd
  /-- readStream on error (line 348). -/
  | readError
  /-- req on close while streaming (line 357): destroy then cleanup. -/
  | clientDisconnect
  /-- the outer catch handler (line 370). -/
  | orchestrationError
deriving DecidableEq

/-- The filesystem effect of the handler that fires on each terminal
path: every one of them invokes the guarded cleanup. -/
def runTerminal : TerminalPath → TempFs → TempFs
  | .normalEnd, s => cleanupTemp s
  | .readError, s => cleanupTemp s
  | .clientDisconnect, s => cleanupTemp s
  | .orchestrationError, s => catchCleanupTemp s

/-! ### Client-disconnect subprocess teardown
(index.js lines 262-269 and 283-290) -/

/-- An OS subprocess: whether it is still alive and whether it has
received a termination signal. -/
structure Proc where
  alive : Bool
  signaled : Bool
deriving DecidableEq

/-- proc.kill: the process receives a signal and stops running. -/
def killProc (_ : Proc) : Proc := ⟨false, true⟩

/-- The state of one mp3 download connection: the request flags the
close handler consults, and the two subprocesses of the operation. -/
structure Mp3Conn where
  reqAborted : Bool
  resFinished : Bool
  yt : Proc
  ff : Proc
deriving DecidableEq

/-- The req on close handler of the mp3 path (index.js lines 263-269):
when req.aborted or res.finished holds, ytProc is killed with
SIGKILL. -/
def mp3OnReqClose (c : Mp3Conn) : Mp3Conn :=
  if c.reqAborted || c.resFinished then { c with yt := killProc c.yt } else c

/-- Modelled dependency behavior (fluent-ffmpeg processor): when the
piped output stream (the HTTP response) closes, the library schedules a
kill of its ffmpeg subprocess. -/
def ffOutputStreamClose (c : Mp3Conn) : Mp3Conn :=
  { c with ff := killProc c.ff }

/-- Everything that fires on the mp3 path when the client connection
closes: the registered req close handler, and the response-stream close
seen by fluent-ffmpeg. -/
def mp3ClientDisconnect (c : Mp3Conn) : Mp3Conn :=
  ffOutputStreamClose (mp3OnReqClose c)

/-- The state of one mp4 download connection: dlProc is none before the
spawn and some afterwards (alive becomes false when it exits). -/
structure Mp4Conn where
  dl : Option Proc
  abortedDuringDownload : Bool
deriving DecidableEq

/-- onClientCloseWhileDownloading (index.js lines 284-289): if dlProc
is non-null, set the aborted flag and kill it with SIGKILL.  The
listener is never removed, so it also fires on a disconnect after the
download finished. -/
def onClientCloseWhileDownloading (c : Mp4Conn) : Mp4Conn :=
  match c.dl with
  | some p => ⟨some (killProc p), true⟩
  | none => c

/-- The Validating state of a download operation: the handler is still
awaiting ytDlpMetadata (index.js line 189) and the only subprocess of
the operation is the yt-dlp -j metadata probe. Neither ytDlpMetadata
(lines 81-91) nor the route handler has registered any close observer
yet: both req.on close registrations (lines 263 and 290) come only
after the await. -/
structure ValidatingConn where
  probe : Proc
deriving DecidableEq

/-- A client disconnect during the Validating state: no close observer
is registered at that point, so nothing runs and no subprocess is
signaled; the probe keeps running toward its natural exit. -/
def validatingClientDisconnect (c : ValidatingConn) : ValidatingConn := c

/-! ### Helper lemmas -/

/-- A terminal-path handler firing when the temp file is already gone
changes nothing. -/
lemma runTerminal_of_not_exists (q : TerminalPath) (s : TempFs)
    (h : s.tempExists = false) : runTerminal q s = s := by
  cases q <;> simp [runTerminal, cleanupTemp, catchCleanupTemp, h]

/-- Folding terminal-path handlers over a state with no temp file
changes nothing. -/
lemma foldTerminal_of_not_exists (ps : List TerminalPath) (s : TempFs)
    (h : s.tempExists = false) :
    ps.foldl (fun t q => runTerminal q t) s = s := by
  induction ps with
  | nil => rfl
  | cons q rest ih => simp [List.foldl, runTerminal_of_not_exists q s h, ih]

/-- Looking a key up after filtering that key out of the registry finds
nothing. -/
lemma lookupChannel_filter_ne (key : String) (reg : Registry) :
    lookupChannel key (reg.filter (fun kv => kv.1 ≠ key)) = none := by
  induction reg with
  | nil => rfl
  | cons kv rest ih =>
      by_cases h : kv.1 = key
      · simpa [List.filter_cons, h] using ih
      · simpa [List.filter_cons, h, lookupChannel] using ih

/-- The code-side Math.min on integers is the mathematical min. -/
lemma mathMin_eq_min (a b : ℤ) : mathMin a b = min a b := by
  unfold mathMin
  rw [min_def]

/-! ### Claim theorems -/

/-- C1: on the mp4 path the temporary artifact is deleted exactly once:
whichever terminal handler (stream end, read error, client disconnect,
orchestration error) fires first unlinks it, and any further cleanup
invocation, on any path, leaves the filesystem state unchanged and
raises no error (the guarded unlink is idempotent and total). -/
theorem tempArtifactDeletedExactlyOnce (p : TerminalPath) (ps : List TerminalPath) :
    runTerminal p ⟨true, 0⟩ = ⟨false, 1⟩ ∧
    ps.foldl (fun t q => runTerminal q t) (runTerminal p ⟨true, 0⟩) = ⟨false, 1⟩ ∧
    (∀ s : TempFs, cleanupTemp (cleanupTemp s) = cleanupTemp s) ∧
    (∀ s : TempFs, catchCleanupTemp (cleanupTemp s) = cleanupTemp s) := by
  have h1 : runTerminal p ⟨true, 0⟩ = ⟨false, 1⟩ := by
    cases p <;> simp [runTerminal, cleanupTemp, catchCleanupTemp]
  refine ⟨h1, ?_, ?_, ?_⟩
  · rw [h1]; exact foldTerminal_of_not_exists ps ⟨false, 1⟩ rfl
  · intro s; by_cases h : s.tempExists <;> simp [cleanupTemp, h]
  · intro s; by_cases h : s.tempExists <;> simp [cleanupTemp, catchCleanupTemp, h]

/-- C2 counterexample: a client disconnect during the Validating state,
while the yt-dlp metadata probe is running, signals no subprocess at
all: no close observer is registered before the metadata await, so
after the connection is torn down the probe is still alive and was
never signaled — not every subprocess of the operation receives a
termination signal. -/
theorem probeSurvivesDisconnectCounterexample :
    ((validatingClientDisconnect ⟨⟨true, false⟩⟩).probe.alive = true) ∧
    ((validatingClientDisconnect ⟨⟨true, false⟩⟩).probe.signaled = false) := by
  decide

/-- C2 amended: when the client connection closes after the metadata
probe completed (req.aborted holds and the close observers are in
place), every subprocess then associated with the operation is
signaled and none is left alive: on the mp3 path the close handler
SIGKILLs yt-dlp and the response-stream close makes fluent-ffmpeg kill
its ffmpeg subprocess; on the mp4 path onClientCloseWhileDownloading
SIGKILLs dlProc whenever one was spawned. A disconnect during the
Validating state, by contrast, signals nothing: the metadata probe has
no disconnect observer and runs to its natural exit. -/
theorem clientDisconnectKillsSubprocesses (c : Mp3Conn) (d : Mp4Conn)
    (hab : c.reqAborted = true) :
    ((mp3ClientDisconnect c).yt.alive = false ∧
     (mp3ClientDisconnect c).yt.signaled = true) ∧
    ((mp3ClientDisconnect c).ff.alive = false ∧
     (mp3ClientDisconnect c).ff.signaled = true) ∧
    (∀ p ∈ (onClientCloseWhileDownloading d).dl, p.alive = false ∧ p.signaled = true) ∧
    (∀ v : ValidatingConn, validatingClientDisconnect v = v) := by
  refine ⟨?_, ?_, ?_, fun v => rfl⟩
  · simp [mp3ClientDisconnect, ffOutputStreamClose, mp3OnReqClose, hab, killProc]
  · simp [mp3ClientDisconnect, ffOutputStreamClose, mp3OnReqClose, hab, killProc]
  · intro p hp
    cases hd : d.dl with
    | none => simp [onClientCloseWhileDownloading, hd] at hp
    | some q =>
        simp [onClientCloseWhileDownloading, hd, killProc] at hp
        rw [← hp]
        exact ⟨rfl, rfl⟩

/-- C2 witness: the amended statement at a concrete aborted mp3
connection and a concrete mp4 download, both ending with all their
subprocesses dead and signaled. -/
theorem clientDisconnectKillsSubprocessesWitness :
    ((⟨true, false, ⟨true, false⟩, ⟨true, false⟩⟩ : Mp3Conn).reqAborted = true) ∧
    (((mp3ClientDisconnect ⟨true, false, ⟨true, false⟩, ⟨true, false⟩⟩).yt.alive = false ∧
      (mp3ClientDisconnect ⟨true, false, ⟨true, false⟩, ⟨true, false⟩⟩).yt.signaled = true) ∧
     ((mp3ClientDisconnect ⟨true, false, ⟨true, false⟩, ⟨true, false⟩⟩).ff.alive = false ∧
      (mp3ClientDisconnect ⟨true, false, ⟨true, false⟩, ⟨true, false⟩⟩).ff.signaled = true) ∧
     (∀ p ∈ (onClientCloseWhileDownloading ⟨some ⟨true, false⟩, false⟩).dl,
        p.alive = false ∧ p.signaled = true) ∧
     (∀ v : ValidatingConn, validatingClientDisconnect v = v)) :=
  ⟨rfl, clientDisconnectKillsSubprocesses ⟨true, false, ⟨true, false⟩, ⟨true, false⟩⟩
    ⟨some ⟨true, false⟩, false⟩ rfl⟩

/-- C6: on ffmpeg failure during the audio path the handler kills the
upstream yt-dlp subprocess, publishes a terminal error progress event,
and, headers having been flushed before the ffmpeg handlers were even
installed on this path, ends the connection with no structured body; a
500 JSON body is produced exactly when headers were not yet sent. -/
theorem ffmpegFailureAfterHeaders :
    mp3HeadersSentAtInstall = true ∧
    ffmpegErrorHandler mp3HeadersSentAtInstall
      = [.killYt, .progressEvent ("error"), .endConnection] ∧
    (∀ hs : Bool, Mp3Action.respond500Json ∈ ffmpegErrorHandler hs ↔ hs = false) := by
  refine ⟨by decide, by decide, ?_⟩
  intro hs
  cases hs <;> decide

/-- C8: Content-Length is present exactly on the file-materialized mp4
path, where its value is the stringified stat size of the temp file;
the streaming mp3 path sets no Content-Length at all. -/
theorem contentLengthOnlyOnMp4 (filename : String) (statSize : Nat) :
    findHeader ("Content-Length") (mp4ResponseHeaders filename statSize)
      = some (toString statSize) ∧
    findHeader ("Content-Length") (mp3ResponseHeaders filename) = none := by
  constructor
  · simp [mp4ResponseHeaders, findHeader]
  · simp [mp3ResponseHeaders, findHeader]

/-- C10: sendProgress for a key with no registered channel is a silent
no-op: the registry is unchanged (no channel is created, nothing is
raised), and a subscriber that attaches to the key afterwards starts
with an empty delivery history, so the dropped event is never seen. -/
theorem sendProgressAbsentKeyNoop (key payload : String) (sid : Nat) (reg : Registry)
    (h : lookupChannel key reg = none) :
    sendProgress key payload reg = reg ∧
    lookupChannel key (subscribeProgress key sid (sendProgress key payload reg))
      = some ⟨[⟨sid, []⟩]⟩ := by
  have h1 : sendProgress key payload reg = reg := by
    unfold sendProgress
    rw [h]
  refine ⟨h1, ?_⟩
  rw [h1]
  unfold subscribeProgress getEmitter
  rw [h]
  unfold updateChannel
  rw [if_pos rfl]
  unfold lookupChannel
  rw [if_pos rfl]

/-- C10 witness: publishing on the empty registry changes nothing and a
later subscriber to that key has received nothing. -/
theorem sendProgressAbsentKeyNoopWitness :
    lookupChannel ("k") ([] : Registry) = none ∧
    (sendProgress ("k") ("p") ([] : Registry) = ([] : Registry) ∧
     lookupChannel ("k") (subscribeProgress ("k") 0 (sendProgress ("k") ("p") ([] : Registry)))
       = some ⟨[⟨0, []⟩]⟩) :=
  ⟨rfl, sendProgressAbsentKeyNoop ("k") ("p") 0 [] rfl⟩

/-- C3 counterexample: for the invalid format flac the handler does
answer 400, but it has already spawned a subprocess (the yt-dlp
metadata probe) before responding, so it does not spawn zero
subprocesses before responding. -/
theorem invalidFormatSpawnCounterexample :
    toLowerCase (jsOrDefault (some ("flac")) ("mp3")) ≠ "mp3" ∧
    toLowerCase (jsOrDefault (some ("flac")) ("mp3")) ≠ "mp4" ∧
    (downloadHandler (some ("flac")) (.ok ⟨some ("title"), some 10⟩)).response
      = .reject 400 ("Invalid format. Use mp3 or mp4.") ∧
    (downloadHandler (some ("flac")) (.ok ⟨some ("title"), some 10⟩)).spawnsBeforeResponse
      = [Spawn.metaProbe] ∧
    (downloadHandler (some ("flac")) (.ok ⟨some ("title"), some 10⟩)).spawnsBeforeResponse
      ≠ [] := by
  decide

/-- C3 amended: an invalid format is answered 400 with an error body
(when the metadata probe succeeded), and no download or transcode
subprocess is ever spawned; the only spawn of the whole run is the
metadata probe, which precedes validation. -/
theorem invalidFormatNoDownloadSpawn (q : Option String) (meta : VideoMeta)
    (h3 : toLowerCase (jsOrDefault q ("mp3")) ≠ "mp3")
    (h4 : toLowerCase (jsOrDefault q ("mp3")) ≠ "mp4") :
    isReject400 (downloadHandler q (.ok meta)).response = true ∧
    (downloadHandler q (.ok meta)).allSpawns = [Spawn.metaProbe] := by
  unfold downloadHandler
  by_cases hdur : 3600 < flooredDuration meta
  · simp [hdur, isReject400]
  · simp [hdur, h3, h4, isReject400]

/-- C3 witness: the amended statement at the concrete invalid format
flac. -/
theorem invalidFormatNoDownloadSpawnWitness :
    toLowerCase (jsOrDefault (some ("flac")) ("mp3")) ≠ "mp3" ∧
    (isReject400 (downloadHandler (some ("flac")) (.ok ⟨some ("t"), some 10⟩)).response = true ∧
     (downloadHandler (some ("flac")) (.ok ⟨some ("t"), some 10⟩)).allSpawns
       = [Spawn.metaProbe]) :=
  ⟨by decide,
   invalidFormatNoDownloadSpawn (some ("flac")) ⟨some ("t"), some 10⟩ (by decide) (by decide)⟩

/-- C4 counterexample: a 3601 second video is answered 400, but the
rejection does not happen before any subprocess is spawned: the yt-dlp
metadata probe, which produced that duration, was spawned before the
response. -/
theorem durationCeilingSpawnCounterexample :
    3600 < flooredDuration ⟨some ("t"), some 3601⟩ ∧
    (downloadHandler none (.ok ⟨some ("t"), some 3601⟩)).response
      = .reject 400 ("Video too long. Maximum 1 hour allowed.") ∧
    (downloadHandler none (.ok ⟨some ("t"), some 3601⟩)).spawnsBeforeResponse
      = [Spawn.metaProbe] ∧
    (downloadHandler none (.ok ⟨some ("t"), some 3601⟩)).spawnsBeforeResponse ≠ [] := by
  decide

/-- C4 amended: a metadata duration beyond the 3600 second ceiling is
answered 400 before any download subprocess is spawned; the metadata
probe subprocess, necessarily spawned to learn the duration, is the
only spawn of the run. -/
theorem durationCeilingRejected (q : Option String) (meta : VideoMeta)
    (h : 3600 < flooredDuration meta) :
    (downloadHandler q (.ok meta)).response
      = .reject 400 ("Video too long. Maximum 1 hour allowed.") ∧
    (downloadHandler q (.ok meta)).allSpawns = [Spawn.metaProbe] := by
  unfold downloadHandler
  simp [h]

/-- C4 witness: the amended statement at the concrete duration 3601. -/
theorem durationCeilingRejectedWitness :
    3600 < flooredDuration ⟨some ("t"), some 3601⟩ ∧
    ((downloadHandler none (.ok ⟨some ("t"), some 3601⟩)).response
       = .reject 400 ("Video too long. Maximum 1 hour allowed.") ∧
     (downloadHandler none (.ok ⟨some ("t"), some 3601⟩)).allSpawns = [Spawn.metaProbe]) :=
  ⟨by decide, durationCeilingRejected none ⟨some ("t"), some 3601⟩ (by decide)⟩

/-- C5 counterexample: with the producing operation still running
(producerEnded = false), the sole subscriber of a key disconnects and
the registry entry is removed at once: removal is triggered by the
subscriber side alone, not reference-counted against the producer. -/
theorem registryRemovalCounterexample :
    ((⟨subscribeProgress ("k") 0 [], false⟩ : DownloadOp).producerEnded = false) ∧
    lookupChannel ("k") (⟨subscribeProgress ("k") 0 [], false⟩ : DownloadOp).registry
      = some ⟨[⟨0, []⟩]⟩ ∧
    ((opOnSubscriberClose ("k") 0 ⟨subscribeProgress ("k") 0 [], false⟩).producerEnded
       = false) ∧
    lookupChannel ("k")
        (opOnSubscriberClose ("k") 0 ⟨subscribeProgress ("k") 0 [], false⟩).registry
      = none := by
  decide

/-- C5 amended: a registry entry is removed exactly when its last
subscriber disconnects, whatever the state of the producing operation:
the close handler consults only the listener count, and leaves the
producer state untouched. -/
theorem registryRemovalSubscriberSideOnly (key : String) (sid : Nat)
    (st : DownloadOp) (ch : Channel)
    (hch : lookupChannel key st.registry = some ch)
    (hlast : (removeListener sid ch).listeners = []) :
    lookupChannel key (opOnSubscriberClose key sid st).registry = none ∧
    (opOnSubscriberClose key sid st).producerEnded = st.producerEnded := by
  refine ⟨?_, rfl⟩
  show lookupChannel key (onSubscriberClose key sid st.registry) = none
  simp only [onSubscriberClose, hch]
  rw [if_pos hlast]
  exact lookupChannel_filter_ne key st.registry

/-- C5 witness: the amended statement at a concrete one-subscriber
registry with the producer still running. -/
theorem registryRemovalSubscriberSideOnlyWitness :
    lookupChannel ("k") ((⟨[(("k" : String), ⟨[⟨0, []⟩]⟩)], false⟩ : DownloadOp)).registry
      = some ⟨[⟨0, []⟩]⟩ ∧
    (removeListener 0 ⟨[⟨0, []⟩]⟩).listeners = [] ∧
    (lookupChannel ("k")
        (opOnSubscriberClose ("k") 0 ⟨[(("k" : String), ⟨[⟨0, []⟩]⟩)], false⟩).registry
       = none ∧
     (opOnSubscriberClose ("k") 0
        (⟨[(("k" : String), ⟨[⟨0, []⟩]⟩)], false⟩ : DownloadOp)).producerEnded
       = (⟨[(("k" : String), ⟨[⟨0, []⟩]⟩)], false⟩ : DownloadOp).producerEnded) :=
  ⟨by decide, by decide,
   registryRemovalSubscriberSideOnly ("k") 0 ⟨[(("k" : String), ⟨[⟨0, []⟩]⟩)], false⟩
     ⟨[⟨0, []⟩]⟩ (by decide) (by decide)⟩

/-- C7: for a transcoder time-position report the published percent
equals the floor of elapsed over total times 100, clamped to the range
0 to 100 (the code writes min only, which coincides with the clamp
because the operands are nonnegative), and it is null whenever the
total duration is unknown: zero, or absent in the metadata. -/
theorem progressPercentClampedOrNull (seconds duration : ℚ)
    (hs : 0 ≤ seconds) (hd : 0 ≤ duration) :
    progressPercent seconds duration =
      (if duration = 0 then none
       else some (max 0 (min 100 ⌊seconds / duration * 100⌋))) ∧
    (∀ m : VideoMeta, m.duration = none → ∀ tm, onProgressPercent tm m = none) := by
  constructor
  · unfold progressPercent
    by_cases h0 : duration = 0
    · simp [h0]
    · rw [if_neg h0, if_neg h0]
      have hq : (seconds / duration * 100).floor = ⌊seconds / duration * 100⌋ :=
        (Rat.floor_def' _).trans Rat.floor_def.symm
      have hx : (0 : ℤ) ≤ ⌊seconds / duration * 100⌋ :=
        Int.floor_nonneg.mpr (mul_nonneg (div_nonneg hs hd) (by norm_num))
      rw [mathMin_eq_min, hq, max_eq_right (le_min (by norm_num) hx)]
  · intro m hm tm
    unfold onProgressPercent flooredDuration
    rw [hm]
    simp [progressPercent]

/-- C7 witness: the clamped formula at 30 elapsed seconds of a 60
second total. -/
theorem progressPercentClampedOrNullWitness :
    ((0 : ℚ) ≤ 30) ∧ ((0 : ℚ) ≤ 60) ∧
    (progressPercent 30 60 =
       (if (60 : ℚ) = 0 then none
        else some (max 0 (min 100 ⌊(30 : ℚ) / 60 * 100⌋))) ∧
     (∀ m : VideoMeta, m.duration = none → ∀ tm, onProgressPercent tm m = none)) :=
  ⟨by norm_num, by norm_num,
   progressPercentClampedOrNull 30 60 (by norm_num) (by norm_num)⟩

/-- C9: an omitted format query parameter behaves exactly as the
explicit format mp3, format matching is case-insensitive (MP4 runs as
mp4, Mp3 as mp3), and an absent format is never answered with the
invalid-format rejection. -/
theorem absentFormatDefaultsToMp3 :
    (∀ m : Except String VideoMeta,
       downloadHandler none m = downloadHandler (some ("mp3")) m) ∧
    (∀ m, downloadHandler (some ("MP4")) m = downloadHandler (some ("mp4")) m) ∧
    (∀ m, downloadHandler (some ("Mp3")) m = downloadHandler (some ("mp3")) m) ∧
    (∀ m, (downloadHandler none m).response
       ≠ .reject 400 ("Invalid format. Use mp3 or mp4.")) := by
  refine ⟨?_, ?_, ?_, ?_⟩
  · intro m
    unfold downloadHandler
    rw [show toLowerCase (jsOrDefault none ("mp3")) = "mp3" from by decide,
        show toLowerCase (jsOrDefault (some ("mp3")) ("mp3")) = "mp3" from by decide]
  · intro m
    unfold downloadHandler
    rw [show toLowerCase (jsOrDefault (some ("MP4")) ("mp3")) = "mp4" from by decide,
        show toLowerCase (jsOrDefault (some ("mp4")) ("mp3")) = "mp4" from by decide]
  · intro m
    unfold downloadHandler
    rw [show toLowerCase (jsOrDefault (some ("Mp3")) ("mp3")) = "mp3" from by decide,
        show toLowerCase (jsOrDefault (some ("mp3")) ("mp3")) = "mp3" from by decide]
  · intro m
    cases m with
    | error e => simp [downloadHandler]
    | ok meta =>
        by_cases hdur : 3600 < flooredDuration meta
        · simp [downloadHandler, hdur,
            show ("Video too long. Maximum 1 hour allowed." : String)
              ≠ "Invalid format. Use mp3 or mp4." from by decide]
        · simp [downloadHandler, hdur,
            show toLowerCase (jsOrDefault none ("mp3")) = "mp3" from by decide]

end YT
